import Mathlib

/-!
Verification of the table-community-map repository's location-resolution
pipeline (`src/netlify/functions/planning-center.js`, `src/map.js`).

The JavaScript source is shallowly embedded: strings are Lean `String`s
manipulated through explicit character-list helpers mirroring the JS
string methods used by the code (`toLowerCase`, `trim`, `includes`,
`split(',')`), coordinates are pairs of rationals, `Math.random()` is an
explicit stream `r : Nat -> Rat` of draws consumed left to right with a
running call counter, and JS `null`/`undefined` fields are `Option`s with
JS truthiness made explicit.
-/

/-- Decides whether `pat` occurs at the start of `s` (character lists). -/
def startsWithList : List Char → List Char → Bool
  | _, [] => true
  | [], _ :: _ => false
  | c :: cs, p :: ps => c == p && startsWithList cs ps

/-- Decides whether `pat` occurs anywhere inside `s` (character lists),
mirroring JS `s.includes(pat)` which is true for the empty pattern. -/
def containsList : List Char → List Char → Bool
  | [], pat => startsWithList [] pat
  | c :: cs, pat => startsWithList (c :: cs) pat || containsList cs pat

/-- JS `s.includes(pat)` on strings. -/
def includesStr (s pat : String) : Bool :=
  containsList s.data pat.data

/-- JS `s.toLowerCase()` restricted to ASCII, which is all the source data uses. -/
def lowerStr (s : String) : String :=
  ⟨s.data.map Char.toLower⟩

/-- ASCII whitespace test used by the embedded `trim`. -/
def isSpaceChar (c : Char) : Bool :=
  c == ' ' || c == '\t' || c == '\n' || c == '\r'

/-- JS `s.trim()`: strip leading and trailing whitespace. -/
def trimStr (s : String) : String :=
  ⟨((s.data.dropWhile isSpaceChar).reverse.dropWhile isSpaceChar).reverse⟩

/-- JS `s.split(',')[0]`: the text before the first comma (the whole string
when there is no comma). -/
def beforeComma (s : String) : String :=
  ⟨s.data.takeWhile (fun c => !(c == ','))⟩

/-- JS truthiness of an optional string field: present and non-empty. -/
def jsTruthyStr : Option String → Bool
  | some s => !(s == "")
  | none => false

/-- JS truthiness of an optional boolean field: present and `true`. -/
def jsTruthyBool : Option Bool → Bool
  | some b => b
  | none => false

/-- JS `o || d` for an optional string `o` with string default `d`:
the default replaces both an absent and an empty value. -/
def jsOr (o : Option String) (d : String) : String :=
  match o with
  | some s => if s == "" then d else s
  | none => d

/-- A latitude/longitude pair; the source stores them as JS numbers holding
the decimal literals below, embedded as rationals. -/
structure Coord where
  lat : ℚ
  lng : ℚ
deriving DecidableEq, Repr

/-- The attribute bag of a raw Planning Center group record. Every field the
source reads is optional: JS `undefined` is `none`. -/
structure RawAttributes where
  name : Option String := none
  description : Option String := none
  location_type_preference : Option String := none
  location : Option String := none
  contact_info : Option String := none
  church_center_url_location : Option String := none
  address : Option String := none
  meeting_location : Option String := none
  schedule : Option String := none
  contact_email : Option String := none
  memberships_count : Option ℕ := none
  archived : Option Bool := none
  updated_at : Option String := none
  group_type : Option String := none
  enrollment : Option String := none
  public_church_center_web_url : Option String := none
deriving DecidableEq, Repr

/-- A raw group record `{ id, attributes }` as fetched from the API. -/
structure RawGroup where
  id : String
  attributes : RawAttributes
deriving DecidableEq, Repr

/-- The `location` object built by `PlanningCenterAPI.extractLocation`. -/
structure LocationInfo where
  address : String
  neighborhood : String
  coordinates : Option Coord
  hasSpecificLocation : Bool
deriving DecidableEq, Repr

/-- A processed group record as built by `PlanningCenterAPI.processGroups`
and by `getFallbackGroups`, the unit handed to the presentation layer. -/
structure GroupRecord where
  id : String
  name : String
  description : String
  groupType : String
  location : LocationInfo
  meetingDay : String
  contactInfo : String
  coordinates : Option Coord
  memberCount : ℕ
  isActive : Bool
  lastUpdated : Option String
deriving DecidableEq, Repr

namespace PlanningCenterAPI

/-- The affinity keyword list of `determineGroupType`
(src/netlify/functions/planning-center.js lines 412-417). -/
def affinityKeywords : List String :=
  ["young adult", "ya", "professional", "graduate", "student",
   "women", "men", "lgbtq", "queer", "people of color", "poc",
   "parents", "family", "seniors", "older adult", "creative",
   "artist", "musician", "book", "hiking", "outdoors"]

/-- Core of `determineGroupType`: lower-case name and description and return
"affinity" exactly when some affinity keyword occurs in either. -/
def determineGroupTypeStr (name description : String) : String :=
  if affinityKeywords.any (fun kw =>
      includesStr (lowerStr name) kw || includesStr (lowerStr description) kw)
  then "affinity" else "community"

/-- `determineGroupType(attributes)` (lines 406-424): reads
`attributes.name || ''` and `attributes.description || ''`; the
`attributes.group_type` binding in the source is never used. -/
def determineGroupType (a : RawAttributes) : String :=
  determineGroupTypeStr (jsOr a.name "") (jsOr a.description "")

/-- `addRandomOffset(coords)` (lines 525-537): adds `(Math.random() - 0.5) * 0.0072`
independently to latitude and longitude. The random stream `r` supplies the
`Math.random()` draws; the call at counter `k` consumes `r k` (latitude) and
`r (k + 1)` (longitude) and returns the advanced counter. -/
def addRandomOffset (c : Coord) (r : ℕ → ℚ) (k : ℕ) : Coord × ℕ :=
  (⟨c.lat + (r k - 0.5) * 0.0072, c.lng + (r (k + 1) - 0.5) * 0.0072⟩, k + 2)

/-- The `dmvLocations` gazetteer of `geocodeLocation` (lines 428-488),
in source insertion order. -/
def dmvLocations : List (String × Coord) :=
  [("dupont circle", ⟨38.9097, -77.0365⟩),
   ("dupont", ⟨38.9097, -77.0365⟩),
   ("adams morgan", ⟨38.9220, -77.0420⟩),
   ("capitol hill", ⟨38.8903, -76.9901⟩),
   ("columbia heights", ⟨38.9289, -77.0353⟩),
   ("shaw", ⟨38.9129, -77.0218⟩),
   ("petworth", ⟨38.9369, -77.0249⟩),
   ("brookland", ⟨38.9339, -76.9956⟩),
   ("anacostia", ⟨38.8622, -76.9810⟩),
   ("foggy bottom", ⟨38.9006, -77.0472⟩),
   ("georgetown", ⟨38.9076, -77.0723⟩),
   ("logan circle", ⟨38.9095, -77.0292⟩),
   ("u street", ⟨38.9169, -77.0281⟩),
   ("h street", ⟨38.8998, -76.9951⟩),
   ("navy yard", ⟨38.8762, -77.0065⟩),
   ("downtown", ⟨38.8951, -77.0364⟩),
   ("chinatown", ⟨38.8998, -77.0218⟩),
   ("washington dc", ⟨38.9072, -77.0369⟩),
   ("washington", ⟨38.9072, -77.0369⟩),
   ("dc", ⟨38.9072, -77.0369⟩),
   ("arlington", ⟨38.8816, -77.0910⟩),
   ("alexandria", ⟨38.8048, -77.0469⟩),
   ("fairfax", ⟨38.8462, -77.3064⟩),
   ("vienna", ⟨38.9012, -77.2653⟩),
   ("reston", ⟨38.9687, -77.3411⟩),
   ("sterling", ⟨39.0068, -77.4286⟩),
   ("annandale", ⟨38.8304, -77.1963⟩),
   ("falls church", ⟨38.8823, -77.1711⟩),
   ("tysons", ⟨38.9188, -77.2297⟩),
   ("leesburg", ⟨39.1156, -77.5636⟩),
   ("herndon", ⟨38.9696, -77.3861⟩),
   ("mclean", ⟨38.9338, -77.1775⟩),
   ("springfield", ⟨38.7893, -77.1872⟩),
   ("burke", ⟨38.7932, -77.2719⟩),
   ("woodbridge", ⟨38.6581, -77.2497⟩),
   ("manassas", ⟨38.7509, -77.4753⟩),
   ("bethesda", ⟨38.9807, -77.1010⟩),
   ("rockville", ⟨39.0840, -77.1528⟩),
   ("silver spring", ⟨38.9907, -77.0261⟩),
   ("takoma park", ⟨38.9779, -77.0074⟩),
   ("college park", ⟨38.9897, -76.9378⟩),
   ("hyattsville", ⟨38.9551, -76.9455⟩),
   ("gaithersburg", ⟨39.1434, -77.2014⟩),
   ("germantown", ⟨39.1712, -77.2717⟩),
   ("wheaton", ⟨39.0370, -77.0558⟩),
   ("kensington", ⟨39.0273, -77.0764⟩),
   ("chevy chase", ⟨38.9851, -77.0872⟩),
   ("potomac", ⟨39.0223, -77.2086⟩),
   ("bowie", ⟨38.9426, -76.7302⟩),
   ("laurel", ⟨39.0993, -76.8483⟩),
   ("greenbelt", ⟨38.9912, -76.8756⟩),
   ("riverdale", ⟨38.9584, -76.9119⟩)]

/-- JS object key lookup `tbl[key]` on the gazetteer. -/
def lookupCoord (tbl : List (String × Coord)) (key : String) : Option Coord :=
  (tbl.find? (fun pc => pc.1 == key)).map (fun pc => pc.2)

/-- The lower-cased, trimmed form `geocodeLocation` computes first
(`const location = locationString.toLowerCase().trim()`). -/
def normalizeLoc (s : String) : String :=
  trimStr (lowerStr s)

/-- `geocodeLocation(locationString)` (lines 427-522): exact gazetteer lookup,
then first two-way substring match over the gazetteer in insertion order, then
the Virginia, Maryland and DC-center anchors; every branch jitters its anchor
through one `addRandomOffset` call. -/
def geocodeLocation (s : String) (r : ℕ → ℚ) (k : ℕ) : Coord × ℕ :=
  match lookupCoord dmvLocations (normalizeLoc s) with
  | some coords => addRandomOffset coords r k
  | none =>
    match dmvLocations.find? (fun pc =>
        includesStr (normalizeLoc s) pc.1 || includesStr pc.1 (normalizeLoc s)) with
    | some pc => addRandomOffset pc.2 r k
    | none =>
      if includesStr (normalizeLoc s) "virginia" || includesStr (normalizeLoc s) "va" then
        addRandomOffset ⟨38.8816, -77.0910⟩ r k
      else if includesStr (normalizeLoc s) "maryland" || includesStr (normalizeLoc s) "md" then
        addRandomOffset ⟨38.9907, -77.0261⟩ r k
      else
        addRandomOffset ⟨38.9072, -77.0369⟩ r k

/-- The location keyword list of `extractLocationFromName` (lines 371-392),
in source order. -/
def locationKeywords : List String :=
  ["dupont circle", "dupont", "adams morgan", "capitol hill", "columbia heights",
   "shaw", "petworth", "brookland", "anacostia", "foggy bottom", "georgetown",
   "logan circle", "u street", "h street", "navy yard", "downtown", "chinatown",
   "washington dc", "washington", "dc",
   "arlington", "alexandria", "fairfax", "vienna", "reston", "sterling",
   "annandale", "falls church", "tysons", "leesburg", "herndon", "mclean",
   "springfield", "burke", "woodbridge", "manassas",
   "bethesda", "rockville", "silver spring", "takoma park", "college park",
   "hyattsville", "gaithersburg", "germantown", "wheaton", "kensington",
   "chevy chase", "potomac", "bowie", "laurel", "greenbelt", "riverdale",
   "northern virginia", "nova", "maryland", "virginia"]

/-- `extractLocationFromName(groupName)` (lines 365-403): `null` for a missing
or empty name, otherwise the first location keyword occurring in the
lower-cased name. -/
def extractLocationFromName (groupName : Option String) : Option String :=
  match groupName with
  | none => none
  | some gn =>
    if gn == "" then none
    else locationKeywords.find? (fun kw => includesStr (lowerStr gn) kw)

/-- The "no usable location" test `extractLocation` applies twice (lines
318-322 and 339-343): empty, blank, "dmv area", "contact for location", or
anything containing "varies", case-insensitively. -/
def isNoInfo (s : String) : Bool :=
  s == "" || trimStr s == "" || lowerStr s == "dmv area" ||
  lowerStr s == "contact for location" || includesStr (lowerStr s) "varies"

/-- `extractNeighborhood(locationString)` (lines 540-544): the trimmed text
before the first comma, defaulting to "DMV Area". -/
def extractNeighborhood (s : String) : String :=
  if trimStr (beforeComma s) == "" then "DMV Area" else trimStr (beforeComma s)

/-- The candidate selection of `extractLocation` (lines 306-315): the six
location-bearing fields in source order, JS-falsy entries dropped by
`.filter(Boolean)`, then `locationOptions[0] || ''`. -/
def firstTruthyCandidate (a : RawAttributes) : String :=
  ((([a.location_type_preference, a.location, a.contact_info,
      a.church_center_url_location, a.address, a.meeting_location].filterMap id).filter
        (fun s => !(s == ""))).headD "")

/-- `extractLocation(attributes)` (lines 304-362): take the first truthy
candidate field; if it is missing or a no-info sentinel, substitute a keyword
extracted from the group name when one exists; geocode the result when it is
not a sentinel, otherwise return the unresolved location. -/
def extractLocation (a : RawAttributes) (r : ℕ → ℚ) (k : ℕ) : LocationInfo × ℕ :=
  let chosen := if isNoInfo (firstTruthyCandidate a) then
      (extractLocationFromName a.name).getD (firstTruthyCandidate a)
    else firstTruthyCandidate a
  if isNoInfo chosen then
    (⟨"Contact for meeting location", "DMV Area", none, false⟩, k)
  else
    (⟨chosen, extractNeighborhood chosen, some (geocodeLocation chosen r k).1, true⟩,
     (geocodeLocation chosen r k).2)

/-- The per-record body of `processGroups` (lines 280-299): build a
`GroupRecord` from one raw group, threading the random counter through
`extractLocation`. -/
def processOne (g : RawGroup) (r : ℕ → ℚ) (k : ℕ) : GroupRecord × ℕ :=
  let a := g.attributes
  let loc := extractLocation a r k
  ({ id := g.id,
     name := jsOr a.name "Unnamed Group",
     description := jsOr a.description "",
     groupType := determineGroupType a,
     location := loc.1,
     meetingDay := jsOr a.schedule "Contact for details",
     contactInfo := jsOr a.contact_email "",
     coordinates := loc.1.coordinates,
     memberCount := a.memberships_count.getD 0,
     isActive := a.archived == some false,
     lastUpdated := a.updated_at }, loc.2)

/-- The `.map` pass of `processGroups`, consuming the random stream left to
right across the batch. -/
def processGroupsGo (r : ℕ → ℚ) : List RawGroup → ℕ → List GroupRecord × ℕ
  | [], k => ([], k)
  | g :: gs, k =>
    let pg := processOne g r k
    let rest := processGroupsGo r gs pg.2
    (pg.1 :: rest.1, rest.2)

/-- `processGroups(rawGroups)` (lines 279-301): map each raw group to a
`GroupRecord`, then `.filter(group => group.isActive)`; the source comment
notes that groups without coordinates are deliberately not filtered out. -/
def processGroups (raw : List RawGroup) (r : ℕ → ℚ) (k : ℕ) : List GroupRecord × ℕ :=
  let mapped := processGroupsGo r raw k
  (mapped.1.filter (fun g => g.isActive), mapped.2)

/-- The fixed `distributionPoints` list of `distributeGroupsGeographically`
(lines 551-564), in source order. -/
def distributionPoints : List (String × Coord) :=
  [("Dupont Circle", ⟨38.9097, -77.0365⟩),
   ("Arlington", ⟨38.8816, -77.0910⟩),
   ("Columbia Heights", ⟨38.9289, -77.0353⟩),
   ("Bethesda", ⟨38.9807, -77.1010⟩),
   ("Alexandria", ⟨38.8048, -77.0469⟩),
   ("Silver Spring", ⟨38.9907, -77.0261⟩),
   ("Capitol Hill", ⟨38.8903, -76.9901⟩),
   ("Fairfax", ⟨38.8462, -77.3064⟩),
   ("Georgetown", ⟨38.9076, -77.0723⟩),
   ("Adams Morgan", ⟨38.9220, -77.0420⟩),
   ("Rockville", ⟨39.0840, -77.1528⟩),
   ("Takoma Park", ⟨38.9779, -77.0074⟩)]

/-- The record rewrite applied to a coordinate-less group (lines 580-590):
the anchor name and two independently jittered copies of the anchor
coordinate (the nested `location.coordinates` consumes the draws at `k`,
the top-level `coordinates` the draws at `k + 2`). -/
def assignPoint (g : GroupRecord) (pt : String × Coord) (r : ℕ → ℚ) (k : ℕ) : GroupRecord :=
  { g with
    location := { address := pt.1 ++ " area",
                  neighborhood := pt.1,
                  coordinates := some (addRandomOffset pt.2 r k).1,
                  hasSpecificLocation := true },
    coordinates := some (addRandomOffset pt.2 r (k + 2)).1 }

/-- The `.map` pass of `distributeGroupsGeographically` with its running
`distributionIndex` counter `di`: records that already have coordinates pass
through unchanged and consume nothing; each coordinate-less record takes the
anchor at `di % 12`, increments `di`, and consumes four random draws. -/
def distributeGo (r : ℕ → ℚ) : List GroupRecord → ℕ → ℕ → List GroupRecord × ℕ
  | [], _, k => ([], k)
  | g :: gs, di, k =>
    match g.coordinates with
    | some _ =>
      let rest := distributeGo r gs di k
      (g :: rest.1, rest.2)
    | none =>
      let pt := distributionPoints.getD (di % distributionPoints.length) ("", ⟨0, 0⟩)
      let rest := distributeGo r gs (di + 1) (k + 4)
      (assignPoint g pt r k :: rest.1, rest.2)

/-- `distributeGroupsGeographically(groups)` (lines 547-592): one pass over
the batch with the shared counter starting at 0. -/
def distributeGroupsGeographically (groups : List GroupRecord) (r : ℕ → ℚ) (k : ℕ) :
    List GroupRecord × ℕ :=
  distributeGo r groups 0 k

/-- `getFallbackGroups()` of the API client (lines 595-680). In the source the
five records set a top-level `coordinates` property; their `location` objects
carry no `coordinates` key (`undefined`, embedded as `none`). -/
def getFallbackGroups : List GroupRecord :=
  [{ id := "fallback-1",
     name := "Dupont Circle Community Group",
     description := "Weekly gathering for authentic community and spiritual growth",
     groupType := "community",
     location := { address := "Dupont Circle, DC", neighborhood := "Dupont Circle",
                   coordinates := none, hasSpecificLocation := true },
     coordinates := some ⟨38.9097, -77.0365⟩,
     meetingDay := "Wednesday evenings",
     contactInfo := "Contact church for details",
     memberCount := 12,
     isActive := true,
     lastUpdated := none },
   { id := "fallback-2",
     name := "Young Adult Professionals",
     description := "Affinity group for young professionals navigating faith and career",
     groupType := "affinity",
     location := { address := "Arlington, VA", neighborhood := "Arlington",
                   coordinates := none, hasSpecificLocation := true },
     coordinates := some ⟨38.8816, -77.0910⟩,
     meetingDay := "Tuesday evenings",
     contactInfo := "Contact church for details",
     memberCount := 8,
     isActive := true,
     lastUpdated := none },
   { id := "fallback-3",
     name := "Columbia Heights Community Group",
     description := "Diverse community group focused on justice and service",
     groupType := "community",
     location := { address := "Columbia Heights, DC", neighborhood := "Columbia Heights",
                   coordinates := none, hasSpecificLocation := true },
     coordinates := some ⟨38.9289, -77.0353⟩,
     meetingDay := "Thursday evenings",
     contactInfo := "Contact church for details",
     memberCount := 15,
     isActive := true,
     lastUpdated := none },
   { id := "fallback-4",
     name := "LGBTQ+ Affinity Group",
     description := "Safe space for LGBTQ+ members and allies",
     groupType := "affinity",
     location := { address := "Shaw, DC", neighborhood := "Shaw",
                   coordinates := none, hasSpecificLocation := true },
     coordinates := some ⟨38.9129, -77.0218⟩,
     meetingDay := "Monthly gatherings",
     contactInfo := "Contact church for details",
     memberCount := 6,
     isActive := true,
     lastUpdated := none },
   { id := "fallback-5",
     name := "Bethesda Community Group",
     description := "Suburban community group for families and individuals",
     groupType := "community",
     location := { address := "Bethesda, MD", neighborhood := "Bethesda",
                   coordinates := none, hasSpecificLocation := true },
     coordinates := some ⟨38.9807, -77.1010⟩,
     meetingDay := "Sunday afternoons",
     contactInfo := "Contact church for details",
     memberCount := 10,
     isActive := true,
     lastUpdated := none }]

/-- The outcome of the `fetch` inside `getGroups`: HTTP `ok` flag, the
optional `error` field of the decoded JSON body, and its `groups` array. -/
structure FetchResponse where
  ok : Bool
  error : Option String
  groups : List RawGroup
deriving Repr

/-- The environment one `getGroups()` call runs in: `none` models the fetch
throwing (network error), and `rand` supplies the `Math.random()` draws. -/
structure FetchEnv where
  fetchResult : Option FetchResponse
  rand : ℕ → ℚ

/-- `getGroups()` (lines 245-276). The source's first statement is an
unconditional `return this.getFallbackGroups();` (line 248, marked
TEMPORARY), so the fetch, `processGroups` and distribution code below it is
dead and the result ignores the environment. -/
def getGroups (_env : FetchEnv) : List GroupRecord :=
  getFallbackGroups

/-- The code of `getGroups` after its unconditional early return (lines
250-275): this is what one run of the try/catch body would produce — fallback
on a thrown fetch, a non-OK response or a truthy `error` field, otherwise the
processed and geographically distributed batch. -/
def getGroupsLiveBody (env : FetchEnv) : List GroupRecord :=
  match env.fetchResult with
  | none => getFallbackGroups
  | some resp =>
    if !resp.ok then getFallbackGroups
    else if jsTruthyStr resp.error then getFallbackGroups
    else
      let processed := processGroups resp.groups env.rand 0
      (distributeGroupsGeographically processed.1 env.rand processed.2).1

/-- The failure condition of claim C3: the fetch threw, returned a non-OK
status, or its body carried a truthy `error` field. -/
def fetchFailed (env : FetchEnv) : Bool :=
  match env.fetchResult with
  | none => true
  | some resp => !resp.ok || jsTruthyStr resp.error

end PlanningCenterAPI

/-- The attribute object built by `processGroupData` (both the Netlify
function, planning-center.js lines 134-154, and map.js lines 593-613 define
it identically): every field defaulted, so nothing here is optional except
the passed-through `updated_at`. -/
structure ProcessedAttrs where
  name : String
  description : String
  location : String
  schedule : String
  contact_email : String
  public_url : String
  memberships_count : ℕ
  archived : Bool
  updated_at : Option String
  group_type : String
  enrollment : String
deriving DecidableEq, Repr

/-- The `{ id, attributes }` record `processGroupData` returns. -/
structure ProcessedGroup where
  id : String
  attributes : ProcessedAttrs
deriving DecidableEq, Repr

/-- `processGroupData(group)`, shared verbatim by the Netlify function and
map.js: defaulting of every consumed attribute. -/
def processGroupData (g : RawGroup) : ProcessedGroup :=
  { id := g.id,
    attributes :=
      { name := jsOr g.attributes.name "Unnamed Group",
        description := jsOr g.attributes.description "",
        location := jsOr g.attributes.location_type_preference "DMV Area",
        schedule := jsOr g.attributes.schedule "Contact for details",
        contact_email := jsOr g.attributes.contact_email "",
        public_url := jsOr g.attributes.public_church_center_web_url "",
        memberships_count := g.attributes.memberships_count.getD 0,
        archived := jsTruthyBool g.attributes.archived,
        updated_at := g.attributes.updated_at,
        group_type := jsOr g.attributes.group_type "",
        enrollment := jsOr g.attributes.enrollment "open" } }

namespace NetlifyFn

/-- The eligibility filter of the Netlify function's `fetchGroups`
(planning-center.js lines 114-120): not archived, a truthy
`public_church_center_web_url`, and `enrollment === 'open'`. -/
def keepGroup (g : RawGroup) : Bool :=
  !jsTruthyBool g.attributes.archived &&
  jsTruthyStr g.attributes.public_church_center_web_url &&
  (g.attributes.enrollment == some "open")

/-- The record list the Netlify function's `fetchGroups` forwards
(lines 113-121): the filtered batch mapped through `processGroupData`. -/
def fetchGroupsForward (raw : List RawGroup) : List ProcessedGroup :=
  (raw.filter keepGroup).map processGroupData

end NetlifyFn

namespace MapJs

/-- The eligibility filter of map.js `fetchGroups` (map.js lines 568-579):
the callback computes `isActive`, `hasUrl` and `isOpen` but returns only
`isActive` ("Simplified filter for debugging"), so only `archived` decides. -/
def keepGroup (g : RawGroup) : Bool :=
  !jsTruthyBool g.attributes.archived

/-- The record list map.js `fetchGroups` forwards (lines 568-580). -/
def fetchGroupsForward (raw : List RawGroup) : List ProcessedGroup :=
  (raw.filter keepGroup).map processGroupData

end MapJs

/-- A wholly-constant random stream whose every draw is exactly 0.5, the
value at which `addRandomOffset` adds a zero offset. -/
def rHalf : ℕ → ℚ := fun _ => 0.5

/-- A concrete failing environment: the fetch throws. -/
def envHalf : PlanningCenterAPI.FetchEnv := ⟨none, rHalf⟩

/-- An all-default group record used as the `getD` default in statements. -/
def blankRec : GroupRecord :=
  { id := "", name := "", description := "", groupType := "",
    location := { address := "", neighborhood := "", coordinates := none,
                  hasSpecificLocation := false },
    meetingDay := "", contactInfo := "", coordinates := none,
    memberCount := 0, isActive := false, lastUpdated := none }

namespace PlanningCenterAPI

/-- Modelled from the spec, for comparison with `geocodeLocation`: the anchor
the spec's resolution order picks — (a) exact case-insensitive gazetteer
match; (b) else the first gazetteer entry matching by substring in either
direction; (c) else the fixed Arlington anchor for "virginia"/"va" and the
fixed Silver Spring anchor for "maryland"/"md"; (d) else the DC-center
anchor. -/
def geocodeAnchorRef (s : String) : Coord :=
  match lookupCoord dmvLocations (normalizeLoc s) with
  | some c => c
  | none =>
    match dmvLocations.find? (fun pc =>
        includesStr (normalizeLoc s) pc.1 || includesStr pc.1 (normalizeLoc s)) with
    | some pc => pc.2
    | none =>
      if includesStr (normalizeLoc s) "virginia" || includesStr (normalizeLoc s) "va" then
        ⟨38.8816, -77.0910⟩
      else if includesStr (normalizeLoc s) "maryland" || includesStr (normalizeLoc s) "md" then
        ⟨38.9907, -77.0261⟩
      else
        ⟨38.9072, -77.0369⟩

/-- Modelled from the spec, for comparison with `extractLocation`: the first
candidate field value that is non-empty and not a no-info sentinel, scanning
the whole ordered candidate list. -/
def refFirstQualifying (a : RawAttributes) : Option String :=
  ([a.location_type_preference, a.location, a.contact_info,
    a.church_center_url_location, a.address, a.meeting_location].filterMap id).find?
    (fun s => !(isNoInfo s))

/-- Attribute bag whose first truthy location field is the sentinel
"DMV Area" while its second is the resolvable "Arlington"; the name matches
no location keyword. -/
def cexAttrs : RawAttributes :=
  { location_type_preference := some "DMV Area",
    location := some "Arlington",
    name := some "Test Group" }

/-- Attribute bag with no location fields whose name carries a location
keyword (the spec's own resolver example). -/
def arlAttrs : RawAttributes :=
  { name := some "Arlington Young Professionals" }

/-- A raw group with no location data at all, `archived` present and false. -/
def rawBlank : RawGroup :=
  ⟨"g0", { archived := some false }⟩

/-- Thirteen coordinate-less records, one more than the distribution-point
list holds. -/
def blanks13 : List GroupRecord :=
  List.replicate 13 blankRec

/-- A non-archived raw group with open enrollment but no public Church
Center URL. -/
def cexRawGroup : RawGroup :=
  ⟨"g1", { name := some "Test Group", archived := some false, enrollment := some "open" }⟩

/-- Number of coordinate-less records among the first `i` of the batch: the
value of the running `distributionIndex` counter when the pass reaches
record `i`. -/
def missingBefore (gs : List GroupRecord) (i : ℕ) : ℕ :=
  (gs.take i).countP (fun g => g.coordinates.isNone)

lemma distributeGo_length (r : ℕ → ℚ) (gs : List GroupRecord) (di k : ℕ) :
    (distributeGo r gs di k).1.length = gs.length := by
  induction gs generalizing di k with
  | nil => rfl
  | cons g gs ih =>
    cases hc : g.coordinates <;> simp [distributeGo, hc, ih]

lemma distributeGo_coords (r : ℕ → ℚ) (gs : List GroupRecord) (di k : ℕ) :
    ∀ g ∈ (distributeGo r gs di k).1, g.coordinates.isSome := by
  induction gs generalizing di k with
  | nil => intro g hg; simp [distributeGo] at hg
  | cons g gs ih =>
    intro x hx
    cases hc : g.coordinates with
    | some c =>
      simp only [distributeGo, hc] at hx
      rcases List.mem_cons.mp hx with hx | hx
      · subst hx; simp [hc]
      · exact ih di k x hx
    | none =>
      simp only [distributeGo, hc] at hx
      rcases List.mem_cons.mp hx with hx | hx
      · subst hx; simp [assignPoint]
      · exact ih (di + 1) (k + 4) x hx

lemma missingBefore_zero (gs : List GroupRecord) : missingBefore gs 0 = 0 := by
  simp [missingBefore]

lemma missingBefore_cons_succ (g : GroupRecord) (gs : List GroupRecord) (i : ℕ) :
    missingBefore (g :: gs) (i + 1) =
      missingBefore gs i + (if g.coordinates.isNone then 1 else 0) := by
  simp [missingBefore, List.take_succ_cons, List.countP_cons]

lemma distributeGo_getD (r : ℕ → ℚ) (gs : List GroupRecord) (di k i : ℕ)
    (d : GroupRecord) (hi : i < gs.length) :
    ((gs.getD i d).coordinates.isSome →
        (distributeGo r gs di k).1.getD i d = gs.getD i d) ∧
    ((gs.getD i d).coordinates = none →
        (distributeGo r gs di k).1.getD i d =
          assignPoint (gs.getD i d)
            (distributionPoints.getD
              ((di + missingBefore gs i) % distributionPoints.length) ("", ⟨0, 0⟩))
            r (k + 4 * missingBefore gs i)) := by
  induction gs generalizing di k i with
  | nil => exact absurd hi (by simp)
  | cons g gs ih =>
    cases i with
    | zero =>
      constructor
      · intro hs
        simp only [List.getD_cons_zero] at hs ⊢
        rcases ho : g.coordinates with _ | c
        · rw [ho] at hs; simp at hs
        · simp [distributeGo, ho]
      · intro hn
        simp only [List.getD_cons_zero] at hn ⊢
        simp [distributeGo, hn, missingBefore_zero]
    | succ j =>
      have hj : j < gs.length := by simpa using hi
      simp only [List.getD_cons_succ]
      rcases ho : g.coordinates with _ | c
      · have hmb : missingBefore (g :: gs) (j + 1) = missingBefore gs j + 1 := by
          rw [missingBefore_cons_succ, ho]; simp
        constructor
        · intro hs
          have h1 := (ih (di + 1) (k + 4) j hj).1 hs
          simp only [distributeGo, ho, List.getD_cons_succ]
          exact h1
        · intro hn
          have h2 := (ih (di + 1) (k + 4) j hj).2 hn
          simp only [distributeGo, ho, List.getD_cons_succ, hmb]
          rw [h2]
          have e1 : di + 1 + missingBefore gs j = di + (missingBefore gs j + 1) := by omega
          have e2 : k + 4 + 4 * missingBefore gs j = k + 4 * (missingBefore gs j + 1) := by
            omega
          rw [e1, e2]
      · have hmb : missingBefore (g :: gs) (j + 1) = missingBefore gs j := by
          rw [missingBefore_cons_succ, ho]; simp
        constructor
        · intro hs
          have h1 := (ih di k j hj).1 hs
          simp only [distributeGo, ho, List.getD_cons_succ]
          exact h1
        · intro hn
          have h2 := (ih di k j hj).2 hn
          simp only [distributeGo, ho, List.getD_cons_succ, hmb]
          exact h2

lemma fallback_records_check :
    ∀ g ∈ getFallbackGroups,
      g.coordinates.isSome ∧ g.groupType = determineGroupTypeStr g.name g.description := by
  decide

end PlanningCenterAPI

namespace PlanningCenterAPI

/-- Claim C1: every `GroupRecord` in the list returned by `getGroups` has
non-null coordinates, and on the processing pipeline itself
(`processGroups` followed by `distributeGroupsGeographically`) records whose
location could not be resolved are not dropped — the distribution pass
preserves the record count and leaves every output record with non-null
coordinates, for every input batch and random stream. -/
theorem getGroups_coordinates_total :
    ∀ env : FetchEnv,
      (∀ g ∈ getGroups env, g.coordinates.isSome) ∧
      ∀ (raw : List RawGroup) (r : ℕ → ℚ) (k k2 : ℕ),
        (distributeGroupsGeographically (processGroups raw r k).1 r k2).1.length
            = (processGroups raw r k).1.length ∧
        ∀ g ∈ (distributeGroupsGeographically (processGroups raw r k).1 r k2).1,
          g.coordinates.isSome := by
  intro env
  refine ⟨fun g hg => (fallback_records_check g hg).1, fun raw r k k2 => ?_⟩
  exact ⟨distributeGo_length r _ 0 k2, distributeGo_coords r _ 0 k2⟩

/-- Claim C2: `getGroups` is extensionally equal to `getFallbackGroups` — the
unconditional early return at line 248 makes every environment (fetch
succeeding or failing) produce the same fixed 5-record fallback list, so the
live-fetch, `processGroups` and distribution code below it never runs. -/
theorem getGroups_extensionally_fallback :
    ∀ env : FetchEnv, getGroups env = getFallbackGroups ∧ (getGroups env).length = 5 :=
  fun _ => ⟨rfl, rfl⟩

/-- Claim C3: when the repository fetch fails (thrown fetch, non-OK status,
or a truthy `error` field in the body), `getGroups` — and likewise the
try/catch body behind its early return — returns exactly the built-in
5-entry fallback list, whose records all carry non-null coordinates and
whose stated `groupType` equals what `determineGroupType` computes from
their name and description. -/
theorem getGroups_failure_returns_fallback (env : FetchEnv)
    (h : fetchFailed env = true) :
    getGroups env = getFallbackGroups ∧
    getGroupsLiveBody env = getFallbackGroups ∧
    getFallbackGroups.length = 5 ∧
    ∀ g ∈ getFallbackGroups,
      g.coordinates.isSome ∧ g.groupType = determineGroupTypeStr g.name g.description := by
  refine ⟨rfl, ?_, rfl, fallback_records_check⟩
  unfold getGroupsLiveBody
  rcases henv : env.fetchResult with _ | resp
  · rfl
  · unfold fetchFailed at h
    rw [henv] at h
    simp only [Bool.or_eq_true] at h
    rcases h with h | h
    · simp [h]
    · rcases hok : resp.ok
      · simp [hok]
      · simp [hok, h]

/-- Claim C3 witness: a concrete failing environment (the fetch throws)
on which `getGroups` returns the fallback list. -/
theorem getGroups_failure_returns_fallback_witness :
    getGroups envHalf = getFallbackGroups ∧ getGroupsLiveBody envHalf = getFallbackGroups :=
  ⟨(getGroups_failure_returns_fallback envHalf rfl).1,
   (getGroups_failure_returns_fallback envHalf rfl).2.1⟩

end PlanningCenterAPI

namespace PlanningCenterAPI

/-- Claim C4 counterexample: with candidates ["DMV Area", "Arlington"] and a
keyword-free name, the spec's rule picks the qualifying "Arlington", but
`extractLocation` inspects only the first truthy candidate, keeps the
sentinel, and returns an unresolved location. -/
theorem extractLocation_first_qualifying_cex :
    refFirstQualifying cexAttrs = some "Arlington" ∧
    (extractLocation cexAttrs rHalf 0).1.hasSpecificLocation = false ∧
    (extractLocation cexAttrs rHalf 0).1.coordinates = none ∧
    (extractLocation cexAttrs rHalf 0).1.address = "Contact for meeting location" := by
  decide

/-- Claim C4 as amended: `extractLocation` considers only the first truthy
candidate field; when that first candidate is missing, empty or a no-info
sentinel it substitutes a keyword extracted from the group name (keeping the
sentinel when the name yields nothing, so the record resolves to no
location); later candidates are never consulted. The name-extraction
fallback itself behaves as the spec's example states. -/
theorem extractLocation_first_candidate_only :
    (∀ (a : RawAttributes) (r : ℕ → ℚ) (k : ℕ),
      extractLocation a r k =
        (let chosen := if isNoInfo (firstTruthyCandidate a) then
            (extractLocationFromName a.name).getD (firstTruthyCandidate a)
          else firstTruthyCandidate a
         if isNoInfo chosen then
           (⟨"Contact for meeting location", "DMV Area", none, false⟩, k)
         else
           (⟨chosen, extractNeighborhood chosen, some (geocodeLocation chosen r k).1, true⟩,
            (geocodeLocation chosen r k).2))) ∧
    (extractLocation arlAttrs rHalf 0).1.address = "arlington" ∧
    (extractLocation arlAttrs rHalf 0).1.hasSpecificLocation = true :=
  ⟨fun _ _ _ => rfl, by decide, by decide⟩

/-- Claim C5: `geocodeLocation` returns exactly one jitter offset applied to
the anchor the spec's resolution order selects — exact gazetteer match, then
two-way substring match, then the Virginia/Maryland state anchors, then the
DC-center default; the two concrete conjuncts instantiate the spec's own
resolver examples. -/
theorem geocodeLocation_follows_spec :
    (∀ (s : String) (r : ℕ → ℚ) (k : ℕ),
      geocodeLocation s r k = addRandomOffset (geocodeAnchorRef s) r k) ∧
    geocodeAnchorRef "unknown place zzz" = ⟨38.9072, -77.0369⟩ ∧
    geocodeAnchorRef "Dupont Circle, DC" = ⟨38.9097, -77.0365⟩ := by
  refine ⟨?_, rfl, rfl⟩
  intro s r k
  unfold geocodeLocation geocodeAnchorRef
  rcases h1 : lookupCoord dmvLocations (normalizeLoc s) with _ | c
  · rcases h2 : dmvLocations.find? (fun pc =>
        includesStr (normalizeLoc s) pc.1 || includesStr pc.1 (normalizeLoc s)) with _ | pc
    · simp only [h1, h2]
      by_cases hva : (includesStr (normalizeLoc s) "virginia"
          || includesStr (normalizeLoc s) "va") = true
      · simp [hva]
      · by_cases hmd : (includesStr (normalizeLoc s) "maryland"
            || includesStr (normalizeLoc s) "md") = true
        · simp [hva, hmd]
        · simp [hva, hmd]
    · simp only [h1, h2]
  · simp only [h1]

end PlanningCenterAPI

lemma getD_mem_of_lt {α : Type _} (l : List α) (i : ℕ) (d : α) (h : i < l.length) :
    l.getD i d ∈ l := by
  rw [List.getD_eq_getElem l d h]
  exact List.getElem_mem h

namespace PlanningCenterAPI

/-- Claim C1 witness: a batch of one coordinate-less record, run through
`processGroups` and the distribution pass — the surviving record has
non-null coordinates. -/
theorem getGroups_coordinates_total_witness :
    ((distributeGroupsGeographically (processGroups [rawBlank] rHalf 0).1 rHalf 0).1.getD 0
        blankRec).coordinates.isSome :=
  ((getGroups_coordinates_total envHalf).2 [rawBlank] rHalf 0 0).2 _
    (getD_mem_of_lt _ 0 blankRec (by decide))

/-- Claim C6: the distribution pass preserves the batch length, leaves every
record that already has coordinates unchanged, and rebuilds the k-th
coordinate-less record (k = `missingBefore`, the records without coordinates
before it, counted in input order by one shared counter) from the anchor at
index k mod 12 of the fixed distribution-point list. -/
theorem distribute_round_robin (groups : List GroupRecord) (r : ℕ → ℚ) (k i : ℕ)
    (d : GroupRecord) (hi : i < groups.length) :
    (distributeGroupsGeographically groups r k).1.length = groups.length ∧
    ((groups.getD i d).coordinates.isSome →
      (distributeGroupsGeographically groups r k).1.getD i d = groups.getD i d) ∧
    ((groups.getD i d).coordinates = none →
      (distributeGroupsGeographically groups r k).1.getD i d =
        assignPoint (groups.getD i d)
          (distributionPoints.getD (missingBefore groups i % distributionPoints.length)
            ("", ⟨0, 0⟩)) r (k + 4 * missingBefore groups i)) := by
  unfold distributeGroupsGeographically
  refine ⟨distributeGo_length r groups 0 k, (distributeGo_getD r groups 0 k i d hi).1, ?_⟩
  intro hn
  have h := (distributeGo_getD r groups 0 k i d hi).2 hn
  simpa using h

/-- Claim C6 witness: with thirteen coordinate-less records, the thirteenth
(index 12) wraps around to anchor index 0, Dupont Circle. -/
theorem distribute_round_robin_witness :
    (distributeGroupsGeographically blanks13 rHalf 0).1.getD 12 blankRec =
      assignPoint blankRec ("Dupont Circle", ⟨38.9097, -77.0365⟩) rHalf 48 := by
  have h := (distribute_round_robin blanks13 rHalf 0 12 blankRec (by decide)).2.2 rfl
  exact h

/-- Claim C7: `determineGroupType` is a pure function of name and
description, returning "affinity" exactly when some keyword of the fixed
affinity list occurs in the lower-cased name or description and "community"
otherwise; instantiated on the claim's two examples. -/
theorem determineGroupType_keyword_iff :
    (∀ name description : String,
      (determineGroupTypeStr name description = "affinity" ↔
        ∃ kw ∈ affinityKeywords,
          includesStr (lowerStr name) kw = true ∨
          includesStr (lowerStr description) kw = true) ∧
      (determineGroupTypeStr name description = "affinity" ∨
        determineGroupTypeStr name description = "community")) ∧
    (∀ d : String, determineGroupTypeStr "Young Adult Professionals" d = "affinity") ∧
    determineGroupTypeStr "Bethesda Community Group" "families and individuals"
        = "community" := by
  refine ⟨?_, ?_, by decide⟩
  · intro name description
    constructor
    · unfold determineGroupTypeStr
      by_cases h : (affinityKeywords.any fun kw =>
          includesStr (lowerStr name) kw || includesStr (lowerStr description) kw) = true
      · rw [if_pos h]
        simp only [List.any_eq_true, Bool.or_eq_true] at h
        exact iff_of_true rfl h
      · rw [if_neg h]
        simp only [List.any_eq_true, Bool.or_eq_true] at h
        exact iff_of_false (by decide) h
    · unfold determineGroupTypeStr
      by_cases h : (affinityKeywords.any fun kw =>
          includesStr (lowerStr name) kw || includesStr (lowerStr description) kw) = true
      · rw [if_pos h]
        exact Or.inl rfl
      · rw [if_neg h]
        exact Or.inr rfl
  · intro d
    have h : (affinityKeywords.any fun kw =>
        includesStr (lowerStr "Young Adult Professionals") kw
          || includesStr (lowerStr d) kw) = true := by
      apply List.any_eq_true.mpr
      exact ⟨"young adult", by decide, by rw [Bool.or_eq_true]; exact Or.inl (by decide)⟩
    unfold determineGroupTypeStr
    rw [if_pos h]

/-- Claim C8: for draws in [0, 1) — the range of Math.random — each call of
`addRandomOffset` moves latitude and longitude each by an offset of
magnitude at most 0.0036 degrees. -/
theorem addRandomOffset_bounded (c : Coord) (r : ℕ → ℚ) (k : ℕ)
    (h0 : ∀ n, 0 ≤ r n) (h1 : ∀ n, r n < 1) :
    |((addRandomOffset c r k).1.lat - c.lat)| ≤ 0.0036 ∧
    |((addRandomOffset c r k).1.lng - c.lng)| ≤ 0.0036 := by
  have hl : (addRandomOffset c r k).1.lat - c.lat = (r k - 0.5) * 0.0072 := by
    unfold addRandomOffset
    ring
  have hg : (addRandomOffset c r k).1.lng - c.lng = (r (k + 1) - 0.5) * 0.0072 := by
    unfold addRandomOffset
    ring
  rw [hl, hg]
  refine ⟨abs_le.mpr ⟨?_, ?_⟩, abs_le.mpr ⟨?_, ?_⟩⟩
  · nlinarith [h0 k, h1 k]
  · nlinarith [h0 k, h1 k]
  · nlinarith [h0 (k + 1), h1 (k + 1)]
  · nlinarith [h0 (k + 1), h1 (k + 1)]

/-- Claim C8 witness: the bound instantiated at the origin with the constant
one-half stream. -/
theorem addRandomOffset_bounded_witness :
    |((addRandomOffset ⟨0, 0⟩ rHalf 0).1.lat - (0 : ℚ))| ≤ 0.0036 :=
  (addRandomOffset_bounded ⟨0, 0⟩ rHalf 0 (fun _ => by norm_num [rHalf])
    (fun _ => by norm_num [rHalf])).1

/-- Claim C9 counterexample: the first record `getGroups` exposes carries
exactly the literal, unjittered Dupont Circle gazetteer coordinate in both
axes, and `addRandomOffset` itself returns its anchor unchanged when the
random draw is exactly 0.5. -/
theorem coordinates_literal_gazetteer_cex :
    ((getGroups envHalf).getD 0 blankRec).coordinates = some ⟨38.9097, -77.0365⟩ ∧
    lookupCoord dmvLocations "dupont circle" = some ⟨38.9097, -77.0365⟩ ∧
    (addRandomOffset ⟨38.9097, -77.0365⟩ rHalf 0).1 = ⟨38.9097, -77.0365⟩ := by
  refine ⟨rfl, rfl, ?_⟩
  have h0 : rHalf 0 = 0.5 := rfl
  have h1 : rHalf 1 = 0.5 := rfl
  unfold addRandomOffset
  rw [h0, h1]
  simp only [Coord.mk.injEq]
  constructor <;> ring

/-- Claim C9 amended: every record `getGroups` actually exposes carries
exactly the literal gazetteer coordinate of its neighborhood — the
unjittered value, the opposite of the claimed privacy property (and by the
counterexample even the jitter path can return the anchor exactly). -/
theorem getGroups_coordinates_literal_gazetteer :
    ∀ env : FetchEnv, ∀ g ∈ getGroups env,
      lookupCoord dmvLocations (lowerStr g.location.neighborhood) = g.coordinates := by
  intro env g hg
  have hg2 : g ∈ getFallbackGroups := hg
  fin_cases hg2 <;> rfl

/-- Claim C9 amended witness: the first exposed record's coordinates equal
its neighborhood's gazetteer entry. -/
theorem getGroups_coordinates_literal_gazetteer_witness :
    lookupCoord dmvLocations
        (lowerStr ((getGroups envHalf).getD 0 blankRec).location.neighborhood) =
      ((getGroups envHalf).getD 0 blankRec).coordinates :=
  getGroups_coordinates_literal_gazetteer envHalf _
    (getD_mem_of_lt _ 0 blankRec (by decide))

/-- Claim C10 counterexample: a non-archived record with open enrollment but
no public Church Center URL: the Netlify function's `fetchGroups` drops it
even though its `archived` is false, while map.js's variant forwards it. -/
theorem netlify_filter_eligibility_cex :
    cexRawGroup.attributes.archived = some false ∧
    NetlifyFn.fetchGroupsForward [cexRawGroup] = [] ∧
    MapJs.fetchGroupsForward [cexRawGroup] = [processGroupData cexRawGroup] :=
  ⟨rfl, rfl, rfl⟩

/-- Claim C10 amended: only map.js's `fetchGroups` forwards exactly the
records whose `archived` is falsy; the Netlify function's variant
additionally requires a truthy public Church Center URL and
`enrollment === 'open'`. -/
theorem fetchGroups_filter_amended :
    ∀ raw : List RawGroup,
      MapJs.fetchGroupsForward raw =
        (raw.filter (fun g => !jsTruthyBool g.attributes.archived)).map processGroupData ∧
      NetlifyFn.fetchGroupsForward raw =
        (raw.filter (fun g => !jsTruthyBool g.attributes.archived &&
            jsTruthyStr g.attributes.public_church_center_web_url &&
            (g.attributes.enrollment == some "open"))).map processGroupData :=
  fun _ => ⟨rfl, rfl⟩

end PlanningCenterAPI
